import Mathlib

/-!
Shallow embedding of the Clinic-AI adaptive intake dialogue controller and
background transcription worker, translated from the repository sources:

* `src/clinicai/domain/entities/visit.py` — `IntakeSession` entity
  (`add_question_answer`, `can_ask_more_questions`, `complete_intake`).
* `backend/src/clinicai/adapters/external/question_service_openai.py` —
  `OpenAIQuestionService` (`generate_first_question`, `generate_next_question`,
  `should_stop_asking`, `assess_completion_percent`, `_classify_question`).
* `src/clinicai/adapters/external/question_service_openai.py` — the older
  service variant (`_get_fallback_next_question` static list).
* `backend/src/clinicai/application/use_cases/answer_intake.py` —
  `AnswerIntakeUseCase.execute` (one dialogue turn).
* `backend/src/clinicai/workers/transcription_worker.py` —
  `TranscriptionWorker.process_job` idempotency guard and transient-retry path.

External collaborators (the OpenAI chat model) are modelled as explicit string
inputs: the text the model returned for the call in question.  The backend
`_chat_completion` helper catches every exception and returns the empty string,
so a failed model call is modelled by passing `""`.

Python `float` arithmetic in `assess_completion_percent` is idealised as exact
rational arithmetic with `int(x)` rendered as the floor (the value is
non-negative there).
-/

namespace ClinicAI

/-- Python `str.lower()` (character-wise lower-casing). -/
def pyLower (s : String) : String := String.mk (s.data.map Char.toLower)

/-- Python `str.upper()` (character-wise upper-casing). -/
def pyUpper (s : String) : String := String.mk (s.data.map Char.toUpper)

/-- Python `str.strip()`: drop leading and trailing whitespace. -/
def pyStrip (s : String) : String :=
  String.mk ((s.data.dropWhile Char.isWhitespace).reverse.dropWhile
    Char.isWhitespace).reverse

/-- Python `question.lower().strip()`, the normalisation used by the duplicate
check in `IntakeSession.add_question_answer`. -/
def normalizeQ (q : String) : String := pyStrip (pyLower q)

/-- The `IntakeSession.status` values (`"in_progress"`, `"completed"`, `"cancelled"`). -/
inductive IntakeStatus
  | in_progress
  | completed
  | cancelled
deriving DecidableEq, Repr

/-- A recorded question/answer pair (`QuestionAnswer` dataclass; the random
`question_id` and wall-clock `timestamp` are omitted). -/
structure QuestionAnswer where
  question : String
  answer : String
  question_number : Nat
deriving DecidableEq, Repr

/-- Domain errors raised by `IntakeSession.add_question_answer`
(`IntakeAlreadyCompletedError`, `QuestionLimitExceededError`,
`DuplicateQuestionError`). -/
inductive IntakeError
  | intakeAlreadyCompleted
  | questionLimitExceeded (current maxq : Nat)
  | duplicateQuestion (question : String)
deriving DecidableEq, Repr

/-- The `IntakeSession` dataclass.  The `pending_question` field and its
`set_pending_question` setter belong to the backend entity, which is read and
written by `backend/.../use_cases/answer_intake.py`; that entity file is not
under `src/`.  Modelled from the spec: `pendingQuestion: optional string` —
"the question already shown to the client but not yet answered ... Cleared
once answered." -/
structure IntakeSession where
  disease : String
  questions_asked : List QuestionAnswer
  current_question_count : Nat
  max_questions : Nat
  status : IntakeStatus
  pending_question : Option String
deriving DecidableEq, Repr

/-- Fresh session as built by the entity defaults
(`questions_asked=[]`, `current_question_count=0`, `status="in_progress"`). -/
def initial_session (disease : String) (max_questions : Nat) : IntakeSession :=
  { disease := disease
    questions_asked := []
    current_question_count := 0
    max_questions := max_questions
    status := .in_progress
    pending_question := none }

/-- The entity method `IntakeSession.add_question_answer(question, answer)`.
The Python method
mutates in place and raises on failure; here it returns the updated (or, on
error, unchanged) session together with the raised error, preserving the
check order of the source: completed-intake check, question-limit check, duplicate
check, then append and increment.  Clearing `pending_question` on a successful
append is modelled from the spec ("Cleared once answered"); the rest is from
`src/clinicai/domain/entities/visit.py`. -/
def IntakeSession.add_question_answer (s : IntakeSession) (question answer : String) :
    IntakeSession × Option IntakeError :=
  if s.status = .completed then
    (s, some .intakeAlreadyCompleted)
  else if s.max_questions ≤ s.current_question_count then
    (s, some (.questionLimitExceeded s.current_question_count s.max_questions))
  else if s.questions_asked.any (fun qa => normalizeQ qa.question == normalizeQ question) then
    (s, some (.duplicateQuestion question))
  else
    ({ s with
        questions_asked := s.questions_asked ++
          [{ question := question
             answer := answer
             question_number := s.current_question_count + 1 }]
        current_question_count := s.current_question_count + 1
        pending_question := none }, none)

/-- The entity method `IntakeSession.can_ask_more_questions()`. -/
def IntakeSession.can_ask_more_questions (s : IntakeSession) : Bool :=
  decide (s.current_question_count < s.max_questions) && decide (s.status = .in_progress)

/-- The entity method `IntakeSession.is_complete()`. -/
def IntakeSession.is_complete (s : IntakeSession) : Bool :=
  decide (s.status = .completed)

/-- The entity method `IntakeSession.complete_intake()` (the `completed_at`
timestamp is omitted). -/
def IntakeSession.complete_intake (s : IntakeSession) : IntakeSession :=
  { s with status := .completed }

/-- Backend `visit.set_pending_question(text)`.  Modelled from the spec:
"`setPendingQuestion(sessionId, text)`: caches the question the client will
see next" (the backend entity file is not under `src/`). -/
def IntakeSession.set_pending_question (s : IntakeSession) (q : String) : IntakeSession :=
  { s with pending_question := some q }

/-- The question texts of the session transcript, in order. -/
def questionTexts (s : IntakeSession) : List String :=
  s.questions_asked.map (fun qa => qa.question)

/-! ### Backend `OpenAIQuestionService` -/

/-- The fixed English opening question returned by
`generate_first_question` for `language != "sp"`. -/
def first_question_en : String :=
  "Why have you come in today? What is the main concern you want help with?"

/-- The fixed Spanish opening question (`language == "sp"`). -/
def first_question_sp : String :=
  "¿Por qué ha venido hoy? ¿Cuál es la principal preocupación con la que necesita ayuda?"

/-- Backend `generate_first_question(disease, language)`: a fixed prompt,
independent of the disease. -/
def generate_first_question (language : String) : String :=
  if language = "sp" then first_question_sp else first_question_en

/-- The fixed English closing question forced at the end of the dialogue. -/
def closing_question_en : String :=
  "Have we missed anything important about your health, or any other concerns you want the doctor to know?"

/-- The fixed Spanish closing question. -/
def closing_question_sp : String :=
  "¿Hemos pasado por alto algo importante sobre su salud o hay otras preocupaciones que desee que el médico sepa?"

/-- Python `text.rstrip(".")`: drop trailing full stops. -/
def rstrip_dot (t : String) : String :=
  String.mk (t.data.reverse.dropWhile (fun c => c == '.')).reverse

/-- Python `text.replace("\n", " ")` for the one-character pattern `"\n"`. -/
def replace_newlines (t : String) : String :=
  String.mk (t.data.map (fun c => if c == '\n' then ' ' else c))

/-- Python `t.endswith("?")`: the last character is `?`. -/
def ends_with_qmark (t : String) : Bool :=
  t.data.getLast? == some '?'

/-- The output normalisation in `generate_next_question`:
`text.replace("\n", " ").strip()` followed by appending `?` (after stripping
trailing `.`) when the text does not already end in `?`. -/
def normalize_llm_question (text : String) : String :=
  let t := pyStrip (replace_newlines text)
  if ends_with_qmark t then t else rstrip_dot t ++ "?"

/-- Backend `generate_next_question`.  `llm_text` is the chat-model reply for
this call (the prompt built from `disease`, `previous_answers` and
`asked_questions` only feeds the model, so those arguments do not otherwise
affect the result); a failed model call yields `llm_text = ""` because
`_chat_completion` catches every exception and returns the empty string.
When `current_count + 1 >= max_count` the fixed closing question is returned
before the model is consulted. -/
def generate_next_question (llm_text disease : String)
    (previous_answers asked_questions : List String)
    (current_count max_count : Nat) (language : String) : String :=
  if max_count ≤ current_count + 1 then
    if language = "sp" then closing_question_sp else closing_question_en
  else
    normalize_llm_question llm_text

/-- Backend `should_stop_asking(disease, previous_answers, current_count,
max_count)`: `True` exactly when `current_count >= max_count`; the arguments
`disease` and `previous_answers` are never inspected. -/
def should_stop_asking (disease : String) (previous_answers : List String)
    (current_count max_count : Nat) : Bool :=
  if max_count ≤ current_count then true else false

/-- Backend `assess_completion_percent`: the progress ratio
`min(max(current_count / max_count, 0), 1)` scaled to `[0,100]` and truncated
(`int(...)`; the value is non-negative, so truncation is the floor), `0` when
`max_count <= 0`.  Coverage of question categories plays no role. -/
def assess_completion_percent (disease : String)
    (previous_answers asked_questions : List String)
    (current_count max_count : Nat) : Nat :=
  if 0 < max_count then
    let progress_ratio : ℚ :=
      min (max ((current_count : ℚ) / (max_count : ℚ)) 0) 1
    (⌊progress_ratio * 100⌋).toNat
  else 0

/-- The closed category list accepted by the backend `_classify_question`. -/
def valid_categories : List String :=
  ["duration", "pain", "medications", "family", "travel", "allergies",
   "hpi", "associated", "chronic_monitoring", "womens_health",
   "functional", "lifestyle", "triggers", "temporal", "other"]

/-- Backend `_classify_question(question)`.  Empty text short-circuits to
`"other"`; otherwise the chat model is asked for a category (`llm_reply` is
its reply for this call), the reply is lower-cased and stripped, and any
reply outside `valid_categories` falls back to `"other"`.  A failed model
call surfaces as `llm_reply = ""` (see `_chat_completion`), which is invalid
and hence also `"other"`. -/
def classify_question (llm_reply question : String) : String :=
  if question = "" then "other"
  else
    let category := pyLower (pyStrip llm_reply)
    if valid_categories.contains category then category else "other"

/-! ### Older service variant (`src/clinicai/adapters/external/question_service_openai.py`) -/

/-- The static ordered fallback list in `_get_fallback_next_question`. -/
def fallback_questions : List String :=
  ["How long have you been experiencing these symptoms?",
   "On a scale of 1-10, how would you rate the severity?",
   "Are there any activities that make the symptoms worse?",
   "Have you tried any treatments or medications?",
   "How is this affecting your daily activities?",
   "Are you experiencing any other associated symptoms?",
   "What time of day do the symptoms typically occur?",
   "Have you had similar symptoms before?",
   "Is there anything that seems to trigger these symptoms?",
   "How would you describe the quality of the symptoms?",
   "Are the symptoms constant or do they come and go?",
   "Have you noticed any patterns with these symptoms?"]

/-- Legacy `_get_fallback_next_question(disease, current_count)`: index the static
list by the running question count. -/
def get_fallback_next_question (disease : String) (current_count : Nat) : String :=
  if h : current_count < fallback_questions.length then
    fallback_questions.get ⟨current_count, h⟩
  else
    "Is there anything else you\x27d like to tell us about your condition?"

/-- Legacy `should_stop_asking` from the older service variant: hard stop at
the cap, hard continue below three questions, otherwise the chat model is
asked for YES/NO; `llm_reply = none` models the model call raising, in which
case the fallback `current_count >= 5 or current_count >= max_count` is used. -/
def should_stop_asking_legacy (disease : String) (previous_answers : List String)
    (current_count max_count : Nat) (llm_reply : Option String) : Bool :=
  if max_count ≤ current_count then true
  else if current_count < 3 then false
  else
    match llm_reply with
    | some reply => (pyUpper (pyStrip reply)).startsWith "YES"
    | none => decide (5 ≤ current_count) || decide (max_count ≤ current_count)

/-! ### `AnswerIntakeUseCase.execute` — one dialogue turn

`backend/src/clinicai/application/use_cases/answer_intake.py`.  The patient
and visit lookups are out of scope; the step acts on the intake
session.  Two chat-model calls can occur in a turn: deriving the question
being answered when no pending question is cached (`llm_current`), and
generating the next question to cache (`llm_next`).  The use case never
passes a `language`, so the service defaults to English. -/

/-- Result of one `execute` call: the updated session and the response fields
`next_question`, `is_complete`, `completion_percent`, or the raised error
(in which case the session is unchanged). -/
structure StepOutcome where
  session : IntakeSession
  next_question : Option String
  is_complete : Bool
  completion_percent : Nat
  error : Option IntakeError
deriving DecidableEq, Repr

/-- The first-answer symptom capture: `if visit.symptom == "" and
visit.intake_session.current_question_count == 1: visit.symptom =
request.answer.strip()` (the session field `disease` mirrors `visit.symptom`). -/
def update_symptom (s : IntakeSession) (answer : String) : IntakeSession :=
  if s.disease = "" ∧ s.current_question_count = 1 then
    { s with disease := pyStrip answer }
  else s

/-- The question being answered in a turn (lines 46–63 of the use case).
The Python guard is `if not current_question:`, which is true both for a
`None` pending question and for a cached empty string — `Option.getD ""`
followed by the `= ""` test renders that falsy check: an empty cached
question is treated as absent and the question is regenerated (the fixed
first question at count 0, else a freshly generated one). -/
def derived_current_question (llm_current : String) (s : IntakeSession) : String :=
  if s.pending_question.getD "" = "" then
    if s.current_question_count = 0 then generate_first_question "en"
    else
      generate_next_question llm_current s.disease
        (s.questions_asked.map (fun qa => qa.answer))
        (s.questions_asked.map (fun qa => qa.question))
        s.current_question_count s.max_questions "en"
  else s.pending_question.getD ""

/-- The completion condition of the use case after recording (lines 71–86):
`should_stop_asking` holds and at least five questions are recorded, or no
more questions can be asked. -/
def stop_condition (s1 : IntakeSession) : Bool :=
  (should_stop_asking s1.disease (s1.questions_asked.map (fun qa => qa.answer))
      s1.current_question_count s1.max_questions
    && decide (5 ≤ s1.current_question_count))
  || !s1.can_ask_more_questions

/-- The next question generated and cached for the following round
(lines 92–102). -/
def next_question_of (llm_next : String) (s1 : IntakeSession) : String :=
  generate_next_question llm_next s1.disease
    (s1.questions_asked.map (fun qa => qa.answer))
    (s1.questions_asked.map (fun qa => qa.question))
    s1.current_question_count s1.max_questions "en"

/-- The completion percent reported for a non-completing turn
(lines 108–115). -/
def completion_percent_of (s1 : IntakeSession) : Nat :=
  assess_completion_percent s1.disease
    (s1.questions_asked.map (fun qa => qa.answer))
    (s1.questions_asked.map (fun qa => qa.question))
    s1.current_question_count s1.max_questions

/-- One turn of `AnswerIntakeUseCase.execute`: reject a completed intake;
record the derived current question via `add_question_answer`; capture the
symptom from the first answer; complete the intake when `stop_condition`
holds — otherwise generate and cache the next question; report the
completion percent, forced to `100` on completion. -/
def answer_intake_step (llm_current llm_next : String) (s : IntakeSession)
    (answer : String) : StepOutcome :=
  if s.is_complete then
    { session := s, next_question := none, is_complete := false
      completion_percent := 0, error := some .intakeAlreadyCompleted }
  else
    match s.add_question_answer (derived_current_question llm_current s) answer with
    | (_, some e) =>
      { session := s, next_question := none, is_complete := false
        completion_percent := 0, error := some e }
    | (res, none) =>
      let s1 := update_symptom res answer
      if stop_condition s1 then
        { session := s1.complete_intake, next_question := none
          is_complete := true, completion_percent := 100, error := none }
      else
        { session := s1.set_pending_question (next_question_of llm_next s1)
          next_question := some (next_question_of llm_next s1)
          is_complete := false
          completion_percent := completion_percent_of s1
          error := none }

/-- A whole dialogue: fold `answer_intake_step` over a list of turns, each a
triple `(llm_current, llm_next, answer)`.  A turn that raises leaves the
session unchanged (the use case raises before any state is saved). -/
def run_intake (s : IntakeSession) : List (String × String × String) → IntakeSession
  | [] => s
  | (lc, ln, a) :: rest => run_intake (answer_intake_step lc ln s a).session rest

/-! ### `TranscriptionWorker` — idempotency guard and transient retry

`backend/src/clinicai/workers/transcription_worker.py`. -/

/-- The `transcription_status` values of a visit transcription session. -/
inductive TranscriptionStatus
  | pending
  | processing
  | completed
  | failed
deriving DecidableEq, Repr

/-- The visit transcription state read and reset by the idempotency
guard.  Timestamps are seconds. -/
structure TranscriptionSession where
  transcription_status : TranscriptionStatus
  started_at : Option Nat
  error_message : Option String
  transcription_id : Option String
  last_poll_status : Option String
  last_poll_at : Option Nat
deriving DecidableEq, Repr

/-- The visit record as seen by the guard (only `transcription_session`
is consulted). -/
structure TranscriptionVisit where
  transcription_session : Option TranscriptionSession
deriving DecidableEq, Repr

/-- The stale-state reset in `process_job`: status back to `"pending"`, all
progress fields cleared. -/
def reset_transcription_session (ts : TranscriptionSession) : TranscriptionSession :=
  { ts with
      transcription_status := .pending
      started_at := none
      error_message := none
      transcription_id := none
      last_poll_status := none
      last_poll_at := none }

/-- What the idempotency guard decides before any expensive work. -/
inductive GuardAction
  | deleteAndExit
  | extendAndExit (visibility_timeout : Nat)
  | proceed (reset : Option TranscriptionSession)
deriving DecidableEq, Repr

/-- The idempotency guard at the top of `TranscriptionWorker.process_job`
(lines 115–188): missing visit → delete the message and exit; transcription
already `completed` or `failed` → delete and exit; `processing` started less
than 20 minutes (1200 s) ago → extend the visibility of the message by
`max(300, 1200 - age)` seconds and exit; `processing` started at least
20 minutes ago → reset the session to `pending` and proceed; otherwise
proceed with no reset. -/
def idempotency_guard (visit : Option TranscriptionVisit) (now : Nat) : GuardAction :=
  match visit with
  | none => .deleteAndExit
  | some v =>
    match v.transcription_session with
    | none => .proceed none
    | some ts =>
      if ts.transcription_status = .completed then .deleteAndExit
      else if ts.transcription_status = .failed then .deleteAndExit
      else if ts.transcription_status = .processing then
        match ts.started_at with
        | some st =>
          if now - st < 1200 then .extendAndExit (max 300 (1200 - (now - st)))
          else .proceed (some (reset_transcription_session ts))
        | none => .proceed none
      else .proceed none

/-- The backoff `delay_seconds = min(60 * 2 ** retry_count, 300)` — the exponential
backoff for transient failures (line 446). -/
def transient_backoff_delay (retry_count : Nat) : Nat :=
  min (60 * 2 ^ retry_count) 300

/-- Observable effects of the transient-failure handler. -/
structure TransientFailureOutcome where
  requeued : Option (Nat × Nat)
  deleted_original : Bool
  visit_marked_failed : Bool
deriving DecidableEq, Repr

/-- The transient-failure tail of `process_job` (lines 443–528).  When
retries remain, the job is re-enqueued with `retry_count + 1` and the
backoff delay inside a `try` whose exception is only logged, after which the
original message is deleted in a separate `try` — so the deletion happens
whether or not the re-enqueue succeeded (`requeue_succeeds` models the
enqueue call not raising).  When retries are exhausted, the message is
deleted and the visit transcription is marked failed. -/
def handle_transient_failure (retry_count max_retry_attempts : Nat)
    (requeue_succeeds : Bool) : TransientFailureOutcome :=
  if retry_count < max_retry_attempts then
    { requeued :=
        if requeue_succeeds then
          some (retry_count + 1, transient_backoff_delay retry_count)
        else none
      deleted_original := true
      visit_marked_failed := false }
  else
    { requeued := none
      deleted_original := true
      visit_marked_failed := true }


/-- A completed session holding one already-asked question, used to exhibit
the precedence of the completed-intake check over the duplicate check. -/
def c10_session : IntakeSession :=
  { disease := "fever"
    questions_asked :=
      [{ question := "How long have you had fever?", answer := "two days",
         question_number := 1 }]
    current_question_count := 1
    max_questions := 8
    status := .completed
    pending_question := none }

/-- Reachability invariant of intake sessions under the dialogue turn:
no two recorded questions share a normalised text; the transcript length
matches the running count, which respects the budget; sessions are never
cancelled by the dialogue; a cached pending question at the forced turn is
the closing question; and in a completed session any entry carrying the
closing text is the final entry. -/
structure SessionInv (s : IntakeSession) : Prop where
  nodup : ((questionTexts s).map normalizeQ).Nodup
  len_eq : s.questions_asked.length = s.current_question_count
  count_le : s.current_question_count ≤ s.max_questions
  not_cancelled : s.status ≠ .cancelled
  pending_forced : ∀ p, s.pending_question = some p →
    s.max_questions ≤ s.current_question_count + 1 → p = closing_question_en
  completed_last : s.status = .completed → ∀ qa ∈ s.questions_asked,
    qa.question = closing_question_en → s.questions_asked.getLast? = some qa

/-! ### Basic lemmas about `add_question_answer` -/

/-- A completed intake rejects any new answer, unchanged. -/
lemma add_of_completed {s : IntakeSession} (q a : String) (h : s.status = .completed) :
    s.add_question_answer q a = (s, some .intakeAlreadyCompleted) := by
  simp [IntakeSession.add_question_answer, h]

/-- At or above the question cap, `add_question_answer` raises the limit
error, unchanged. -/
lemma add_of_limit {s : IntakeSession} (q a : String) (h1 : s.status ≠ .completed)
    (h2 : s.max_questions ≤ s.current_question_count) :
    s.add_question_answer q a =
      (s, some (.questionLimitExceeded s.current_question_count s.max_questions)) := by
  simp [IntakeSession.add_question_answer, h1, h2]

/-- Characterisation of a successful `add_question_answer`. -/
lemma add_ok {s : IntakeSession} {q a : String}
    (h : (s.add_question_answer q a).2 = none) :
    s.status ≠ .completed ∧ s.current_question_count < s.max_questions ∧
    (∀ qa ∈ s.questions_asked, normalizeQ qa.question ≠ normalizeQ q) ∧
    (s.add_question_answer q a).1 =
      { s with
          questions_asked := s.questions_asked ++
            [{ question := q, answer := a,
               question_number := s.current_question_count + 1 }]
          current_question_count := s.current_question_count + 1
          pending_question := none } := by
  unfold IntakeSession.add_question_answer at h ⊢
  by_cases h1 : s.status = .completed
  · simp [h1] at h
  · by_cases h2 : s.max_questions ≤ s.current_question_count
    · simp [h1, h2] at h
    · by_cases h3 :
        s.questions_asked.any (fun qa => normalizeQ qa.question == normalizeQ q)
      · simp [h1, h2, h3] at h
      · refine ⟨h1, Nat.lt_of_not_le h2, ?_, ?_⟩
        · intro qa hqa heq
          simp only [List.any_eq_true, beq_iff_eq] at h3
          exact h3 ⟨qa, hqa, heq⟩
        · simp [h1, h2, h3]

/-- The method `add_question_answer` never mutates the session when it raises. -/
lemma add_error_unchanged {s : IntakeSession} {q a : String} {e : IntakeError}
    (h : (s.add_question_answer q a).2 = some e) :
    (s.add_question_answer q a).1 = s := by
  unfold IntakeSession.add_question_answer at h ⊢
  by_cases h1 : s.status = .completed
  · simp [h1]
  · by_cases h2 : s.max_questions ≤ s.current_question_count
    · simp [h1, h2]
    · by_cases h3 :
        s.questions_asked.any (fun qa => normalizeQ qa.question == normalizeQ q)
      · simp [h1, h2, h3]
      · simp [h1, h2, h3] at h


/-! ### C3 — budget invariant of `add_question_answer` -/

/-- C3: for a session whose transcript length matches its running count and
respects the budget, the invariant `len(questions_asked) <= max_questions`
is preserved by a successful `add_question_answer`; recording on a completed
session raises the already-completed error; recording (on a non-completed
session) when the count has reached the budget raises the limit error; and
every error leaves the session unchanged. -/
theorem budget_invariant_spec (s : IntakeSession) (q a : String)
    (hlen : s.questions_asked.length = s.current_question_count)
    (hle : s.current_question_count ≤ s.max_questions) :
    ((s.add_question_answer q a).2 = none →
      (s.add_question_answer q a).1.questions_asked.length ≤
        (s.add_question_answer q a).1.max_questions)
    ∧ (s.status = .completed →
        s.add_question_answer q a = (s, some .intakeAlreadyCompleted))
    ∧ (s.status ≠ .completed → s.current_question_count = s.max_questions →
        s.add_question_answer q a =
          (s, some (.questionLimitExceeded s.current_question_count s.max_questions)))
    ∧ (∀ e, (s.add_question_answer q a).2 = some e →
        (s.add_question_answer q a).1 = s) := by
  refine ⟨?_, ?_, ?_, ?_⟩
  · intro h
    obtain ⟨-, hlt, -, hs⟩ := add_ok h
    rw [hs]
    simp only [List.length_append, List.length_cons, List.length_nil, hlen]
    omega
  · intro h
    exact add_of_completed q a h
  · intro h1 h2
    exact add_of_limit q a h1 (le_of_eq h2.symm)
  · intro e he
    exact add_error_unchanged he

/-- Witness for `budget_invariant_spec`: a completed one-question session at
its budget of 1 rejects a new answer with the already-completed error. -/
theorem budget_invariant_spec_witness :
    ({ initial_session "fever" 1 with status := .completed } :
        IntakeSession).add_question_answer "Any allergies?" "none"
      = ({ initial_session "fever" 1 with status := .completed },
          some .intakeAlreadyCompleted) :=
  (budget_invariant_spec _ "Any allergies?" "none" rfl (by decide)).2.1 rfl

/-! ### C10 — duplicate-question rejection -/

/-- C10 counterexample: recording a question whose lower-cased stripped text
equals an already-asked one does NOT always fail with the duplicate error —
on a completed session the already-completed check fires first. -/
theorem duplicate_question_counterexample :
    normalizeQ "how long have you had fever? " = normalizeQ "How long have you had fever?"
    ∧ (c10_session.add_question_answer "how long have you had fever? " "still").2
        = some .intakeAlreadyCompleted
    ∧ (c10_session.add_question_answer "how long have you had fever? " "still").2
        ≠ some (.duplicateQuestion "how long have you had fever? ") := by
  decide

/-- C10 (amended): on an in-progress session below its budget, recording a
question whose lower-cased stripped text equals that of any already-asked
question fails with `DuplicateQuestionError` and leaves the session
unchanged (the completed-intake and budget checks take precedence). -/
theorem duplicate_question_spec (s : IntakeSession) (q a : String)
    (hst : s.status ≠ .completed)
    (hcnt : s.current_question_count < s.max_questions)
    (hdup : ∃ qa ∈ s.questions_asked, normalizeQ qa.question = normalizeQ q) :
    s.add_question_answer q a = (s, some (.duplicateQuestion q)) := by
  obtain ⟨qa, hqa, heq⟩ := hdup
  have hany : s.questions_asked.any
      (fun x => normalizeQ x.question == normalizeQ q) = true := by
    simp only [List.any_eq_true, beq_iff_eq]
    exact ⟨qa, hqa, heq⟩
  simp [IntakeSession.add_question_answer, hst, Nat.not_le.mpr hcnt, hany]

/-- Witness for `duplicate_question_spec`: an in-progress session rejects a
re-asked question (differing only in case and trailing space) with
`DuplicateQuestionError`. -/
theorem duplicate_question_spec_witness :
    ({ c10_session with status := .in_progress } :
        IntakeSession).add_question_answer "how long have you had fever? " "still"
      = ({ c10_session with status := .in_progress },
          some (.duplicateQuestion "how long have you had fever? ")) :=
  duplicate_question_spec { c10_session with status := .in_progress }
    "how long have you had fever? " "still" (by decide) (by decide) (by decide)


/-! ### C1 — the stop decision -/

/-- C1 counterexample: with the question count strictly between the
five-question floor and the cap, `should_stop_asking` returns `false` even
for a chronic complaint whose answers already cover duration, medications,
chronic monitoring and family history — the backend stop decision inspects
no coverage at all. -/
theorem should_stop_counterexample :
    5 ≤ 6 ∧ 6 < 8 ∧
    should_stop_asking "diabetes follow up"
      ["for about ten years",
       "metformin and insulin daily",
       "I check my glucose at home and my last HbA1c was three months ago",
       "my father also had diabetes",
       "no other symptoms",
       "no recent travel"] 6 8 = false := by
  decide

/-! ### C2 — completion percent: bounds lemmas -/

/-- The progress-only completion percent as a natural-number division:
`min(current, max) * 100 / max`. -/
lemma assess_eq_div (d : String) (pa aq : List String) {c m : Nat}
    (hm : 0 < m) :
    assess_completion_percent d pa aq c m = (min c m * 100) / m := by
  unfold assess_completion_percent
  rw [if_pos hm]
  have hm' : (0 : ℚ) < (m : ℚ) := by exact_mod_cast hm
  have hnn : (0 : ℚ) ≤ (c : ℚ) / (m : ℚ) :=
    div_nonneg (Nat.cast_nonneg c) hm'.le
  rw [max_eq_left hnn]
  have hmin : min ((c : ℚ) / (m : ℚ)) 1 = ((min c m : ℕ) : ℚ) / (m : ℚ) := by
    rcases le_total c m with hcm | hmc
    · rw [min_eq_left hcm,
        min_eq_left ((div_le_one hm').mpr (by exact_mod_cast hcm))]
    · rw [min_eq_right hmc,
        min_eq_right ((one_le_div hm').mpr (by exact_mod_cast hmc)),
        div_self (ne_of_gt hm')]
  rw [hmin]
  show (⌊((min c m : ℕ) : ℚ) / (m : ℚ) * 100⌋).toNat = (min c m * 100) / m
  rw [div_mul_eq_mul_div,
    show ((min c m : ℕ) : ℚ) * 100 = ((min c m * 100 : ℕ) : ℚ) by push_cast; ring,
    Rat.floor_natCast_div_natCast]
  rw [← Int.natCast_div, Int.toNat_natCast]

/-- Below the cap the progress-only completion percent is below 100. -/
lemma assess_lt_100 (d : String) (pa aq : List String) {c m : Nat}
    (hm : 0 < m) (h : c < m) :
    assess_completion_percent d pa aq c m < 100 := by
  rw [assess_eq_div d pa aq hm, min_eq_left h.le]
  exact (Nat.div_lt_iff_lt_mul hm).mpr (by omega)

/-- At or above the cap the progress-only completion percent is exactly 100. -/
lemma assess_eq_100 (d : String) (pa aq : List String) {c m : Nat}
    (hm : 0 < m) (h : m ≤ c) :
    assess_completion_percent d pa aq c m = 100 := by
  rw [assess_eq_div d pa aq hm, min_eq_right h, Nat.mul_comm,
    Nat.mul_div_cancel _ hm]

/-- C2 counterexample: one recorded answer out of a budget of 20 yields a
completion percent of 5, violating the claimed floor of 10 after the first
answer (and the claimed coverage blend plays no part in the formula). -/
theorem completion_percent_counterexample :
    assess_completion_percent "fever" ["two days"]
      ["How long have you had fever?"] 1 20 = 5 ∧ 5 < 10 := by
  refine ⟨?_, by decide⟩
  rw [assess_eq_div "fever" ["two days"] ["How long have you had fever?"]
    (by decide : (0:Nat) < 20)]
  decide

/-! ### C6 — worker idempotency guard -/

/-- C6: the guard decision before any expensive work — a `completed` or
`failed` transcription deletes the message and exits; a `processing` one
younger than 20 minutes extends the visibility of the message and exits without
work; a `processing` one at least 20 minutes old resets the session to
`pending` and proceeds. -/
theorem idempotency_guard_spec (v : TranscriptionVisit)
    (ts : TranscriptionSession) (st now : Nat)
    (hts : v.transcription_session = some ts) :
    ((ts.transcription_status = .completed ∨ ts.transcription_status = .failed) →
      idempotency_guard (some v) now = .deleteAndExit)
    ∧ (ts.transcription_status = .processing → ts.started_at = some st →
        now - st < 1200 →
        idempotency_guard (some v) now =
          .extendAndExit (max 300 (1200 - (now - st))))
    ∧ (ts.transcription_status = .processing → ts.started_at = some st →
        1200 ≤ now - st →
        idempotency_guard (some v) now =
          .proceed (some (reset_transcription_session ts))
        ∧ (reset_transcription_session ts).transcription_status = .pending) := by
  refine ⟨?_, ?_, ?_⟩
  · rintro (h | h) <;> simp [idempotency_guard, hts, h]
  · intro hp hst hage
    simp [idempotency_guard, hts, hp, hst, hage]
  · intro hp hst hage
    have : ¬ (now - st < 1200) := Nat.not_lt.mpr hage
    refine ⟨?_, rfl⟩
    simp [idempotency_guard, hts, hp, hst, this]

/-- Witness for `idempotency_guard_spec`: a job started 100 s before `now =
700` s is extended for `max 300 (1200 - 600) = 600` s. -/
theorem idempotency_guard_spec_witness :
    idempotency_guard
        (some ⟨some ⟨.processing, some 100, none, none, none, none⟩⟩) 700
      = .extendAndExit 600 := by
  have h := (idempotency_guard_spec
    ⟨some ⟨.processing, some 100, none, none, none, none⟩⟩
    ⟨.processing, some 100, none, none, none, none⟩ 100 700 rfl).2.1
    rfl rfl (by decide)
  simpa using h

/-! ### C7 — transient retry: delete-after-requeue ordering -/

/-- C7: at the failing input (a transient failure with retries remaining
whose re-enqueue call itself fails), the worker still deletes the original
queue message even though nothing was re-enqueued — the job is silently
lost, contradicting the spec and the comment in the code itself; the backoff delay
itself does follow `min(60 * 2^retry, 300)`. -/
theorem requeue_failure_deletes_spec :
    (handle_transient_failure 0 5 false).deleted_original = true
    ∧ (handle_transient_failure 0 5 false).requeued = none
    ∧ (handle_transient_failure 0 5 true).requeued = some (1, 60)
    ∧ transient_backoff_delay 2 = 240
    ∧ transient_backoff_delay 3 = 300 := by
  decide

/-! ### C8 — model-failure fallback for next-question generation -/

/-- C8 counterexample: on a failed model call (`_chat_completion` returns
`""`), the backend `generate_next_question` returns the degenerate question
`"?"` — not a member of the static fallback list — and if `"?"` was already
asked, that return is an exact repeat of a previously asked question. -/
theorem llm_failure_counterexample :
    generate_next_question "" "fever" ["two days"] ["?"] 3 10 "en" = "?"
    ∧ "?" ∈ (["?"] : List String)
    ∧ "?" ∉ fallback_questions := by
  refine ⟨rfl, by decide, by decide⟩

/-- C8 (amended): whenever the turn is not the forced closing turn, a failed
model call makes the backend `generate_next_question` return `"?"` —
regardless of the asked-question history — and `"?"` is not drawn from the
legacy static fallback list.  No error is propagated (`_chat_completion`
swallows the exception), and nothing prevents the result from repeating an
already-asked question. -/
theorem llm_failure_spec (d : String) (pa aq : List String) (c m : Nat)
    (h : c + 1 < m) :
    generate_next_question "" d pa aq c m "en" = "?"
    ∧ "?" ∉ fallback_questions := by
  constructor
  · unfold generate_next_question
    rw [if_neg (Nat.not_le.mpr h)]
    rfl
  · decide

/-- Witness for `llm_failure_spec` at a concrete non-closing turn. -/
theorem llm_failure_spec_witness :
    generate_next_question "" "cough" ["a week"] ["How long have you had cough?"]
        2 8 "en" = "?"
    ∧ "?" ∉ fallback_questions :=
  llm_failure_spec "cough" ["a week"] ["How long have you had cough?"] 2 8
    (by decide)

/-! ### C9 — the category classifier -/

/-- C9 counterexample: the backend classifier delegates to the chat model,
so two invocations on the same question text can return different
categories (here `"pain"` vs `"duration"`) — the classifier is not a pure
function of the question text. -/
theorem classifier_counterexample :
    classify_question "pain" "How long have you had the pain?" = "pain"
    ∧ classify_question "duration" "How long have you had the pain?" = "duration"
    ∧ ("pain" : String) ≠ "duration" := by
  refine ⟨rfl, rfl, by decide⟩

/-- C9 (amended): for every model reply, the classifier result lies in the
closed category list (invalid replies fall back to `"other"`), and empty
question text short-circuits to `"other"` without consulting the model. -/
theorem classifier_spec (llm_reply question : String) :
    classify_question llm_reply question ∈ valid_categories
    ∧ (question = "" → classify_question llm_reply question = "other") := by
  constructor
  · unfold classify_question
    by_cases hq : question = ""
    · simp [hq, valid_categories]
    · rw [if_neg hq]
      by_cases hc : valid_categories.contains (pyLower (pyStrip llm_reply))
      · rw [if_pos hc]
        simpa using hc
      · rw [if_neg hc]
        simp [valid_categories]
  · intro hq
    simp [classify_question, hq]

/-- Witness for `classifier_spec`: empty text maps to `"other"`. -/
theorem classifier_spec_witness :
    classify_question "pain" "" ∈ valid_categories
    ∧ classify_question "pain" "" = "other" :=
  ⟨(classifier_spec "pain" "").1, (classifier_spec "pain" "").2 rfl⟩


/-! ### Structural lemmas about the dialogue turn -/

@[simp] lemma complete_intake_questions (s : IntakeSession) :
    (s.complete_intake).questions_asked = s.questions_asked := rfl

@[simp] lemma complete_intake_count (s : IntakeSession) :
    (s.complete_intake).current_question_count = s.current_question_count := rfl

@[simp] lemma complete_intake_max (s : IntakeSession) :
    (s.complete_intake).max_questions = s.max_questions := rfl

@[simp] lemma complete_intake_status (s : IntakeSession) :
    (s.complete_intake).status = .completed := rfl

@[simp] lemma complete_intake_pending (s : IntakeSession) :
    (s.complete_intake).pending_question = s.pending_question := rfl

@[simp] lemma set_pending_questions (s : IntakeSession) (q : String) :
    (s.set_pending_question q).questions_asked = s.questions_asked := rfl

@[simp] lemma set_pending_count (s : IntakeSession) (q : String) :
    (s.set_pending_question q).current_question_count = s.current_question_count := rfl

@[simp] lemma set_pending_max (s : IntakeSession) (q : String) :
    (s.set_pending_question q).max_questions = s.max_questions := rfl

@[simp] lemma set_pending_status (s : IntakeSession) (q : String) :
    (s.set_pending_question q).status = s.status := rfl

@[simp] lemma set_pending_pending (s : IntakeSession) (q : String) :
    (s.set_pending_question q).pending_question = some q := rfl

@[simp] lemma update_symptom_questions (s : IntakeSession) (a : String) :
    (update_symptom s a).questions_asked = s.questions_asked := by
  unfold update_symptom; split <;> rfl

@[simp] lemma update_symptom_count (s : IntakeSession) (a : String) :
    (update_symptom s a).current_question_count = s.current_question_count := by
  unfold update_symptom; split <;> rfl

@[simp] lemma update_symptom_max (s : IntakeSession) (a : String) :
    (update_symptom s a).max_questions = s.max_questions := by
  unfold update_symptom; split <;> rfl

@[simp] lemma update_symptom_status (s : IntakeSession) (a : String) :
    (update_symptom s a).status = s.status := by
  unfold update_symptom; split <;> rfl

@[simp] lemma update_symptom_pending (s : IntakeSession) (a : String) :
    (update_symptom s a).pending_question = s.pending_question := by
  unfold update_symptom; split <;> rfl

/-- The stop decision written as a `decide`. -/
lemma should_stop_eq (d : String) (pa : List String) (c m : Nat) :
    should_stop_asking d pa c m = decide (m ≤ c) := by
  unfold should_stop_asking
  split <;> simp [*]

/-- For an in-progress session the completion condition reduces to having
reached the question budget: with the backend `should_stop_asking` the
five-question floor never fires on its own. -/
lemma stop_condition_iff (s1 : IntakeSession) (h : s1.status = .in_progress) :
    stop_condition s1 = true ↔ s1.max_questions ≤ s1.current_question_count := by
  simp [stop_condition, should_stop_eq, IntakeSession.can_ask_more_questions, h]
  omega

/-- A dialogue turn either raises (leaving the session unchanged) or
succeeds. -/
lemma step_session_cases (lc ln a : String) (s : IntakeSession) :
    (answer_intake_step lc ln s a).session = s
    ∨ (answer_intake_step lc ln s a).error = none := by
  unfold answer_intake_step
  by_cases h0 : s.is_complete
  · rw [if_pos h0]; left; rfl
  · rw [if_neg h0]
    rcases hadd : s.add_question_answer (derived_current_question lc s) a with ⟨s1, oe⟩
    cases oe with
    | some e => left; rfl
    | none =>
      right
      by_cases hst : stop_condition (update_symptom s1 a)
      · simp [hst]
      · simp [hst]

/-- Full characterisation of a successful dialogue turn. -/
lemma step_ok_cases (lc ln a : String) (s : IntakeSession)
    (he : (answer_intake_step lc ln s a).error = none) :
    ∃ s1, s.status ≠ .completed ∧
      s.add_question_answer (derived_current_question lc s) a = (s1, none) ∧
      ((stop_condition (update_symptom s1 a) = true ∧
          answer_intake_step lc ln s a =
            { session := (update_symptom s1 a).complete_intake
              next_question := none, is_complete := true
              completion_percent := 100, error := none })
        ∨ (stop_condition (update_symptom s1 a) = false ∧
            answer_intake_step lc ln s a =
              { session := (update_symptom s1 a).set_pending_question
                    (next_question_of ln (update_symptom s1 a))
                next_question := some (next_question_of ln (update_symptom s1 a))
                is_complete := false
                completion_percent := completion_percent_of (update_symptom s1 a)
                error := none })) := by
  unfold answer_intake_step at he ⊢
  by_cases h0 : s.is_complete
  · rw [if_pos h0] at he; exact absurd he (by simp)
  · rw [if_neg h0] at he ⊢
    have hne : s.status ≠ .completed := by
      simpa [IntakeSession.is_complete] using h0
    rcases hadd : s.add_question_answer (derived_current_question lc s) a with ⟨s1, oe⟩
    cases oe with
    | some e =>
      rw [hadd] at he
      simp at he
    | none =>
      refine ⟨s1, hne, rfl, ?_⟩
      by_cases hst : stop_condition (update_symptom s1 a)
      · left; exact ⟨hst, by simp [hst]⟩
      · right
        refine ⟨by simpa using hst, ?_⟩
        simp [hst]


/-- Pair form of the successful-`add_question_answer` characterisation. -/
lemma add_ok_pair {s s1 : IntakeSession} {q a : String}
    (h : s.add_question_answer q a = (s1, none)) :
    s.status ≠ .completed ∧ s.current_question_count < s.max_questions ∧
    (∀ qa ∈ s.questions_asked, normalizeQ qa.question ≠ normalizeQ q) ∧
    s1 = { s with
        questions_asked := s.questions_asked ++
          [{ question := q, answer := a
             question_number := s.current_question_count + 1 }]
        current_question_count := s.current_question_count + 1
        pending_question := none } := by
  have h2 : (s.add_question_answer q a).2 = none := by rw [h]
  obtain ⟨ha, hb, hc, hd⟩ := add_ok h2
  refine ⟨ha, hb, hc, ?_⟩
  rw [← hd, h]

/-! ### C1 — the stop decision (amended) -/

/-- C1 (amended): the backend stop decision returns `true` exactly when
`current_count >= max_count`; it inspects no category coverage.  At the
use-case level the completion decision for an in-progress session likewise
reduces to the recorded count having reached the budget — the five-question
floor and the coverage of the `ConditionProfile` play no role. -/
theorem should_stop_spec :
    (∀ (d : String) (pa : List String) (c m : Nat),
        should_stop_asking d pa c m = true ↔ m ≤ c)
    ∧ (∀ (lc ln a : String) (s : IntakeSession), s.status = .in_progress →
        (answer_intake_step lc ln s a).error = none →
        ((answer_intake_step lc ln s a).is_complete = true ↔
          (answer_intake_step lc ln s a).session.max_questions ≤
            (answer_intake_step lc ln s a).session.current_question_count)) := by
  constructor
  · intro d pa c m
    rw [should_stop_eq]
    simp
  · intro lc ln a s hip he
    obtain ⟨s1, hne, hadd, hcase⟩ := step_ok_cases lc ln a s he
    obtain ⟨-, hlt, -, hs1⟩ := add_ok_pair hadd
    have hst1 : (update_symptom s1 a).status = .in_progress := by
      rw [update_symptom_status, hs1, hip]
    rcases hcase with ⟨hst, hstep⟩ | ⟨hst, hstep⟩
    · have hmc := (stop_condition_iff _ hst1).mp hst
      rw [hstep]
      simpa using hmc
    · have hmc : ¬ (update_symptom s1 a).max_questions ≤
          (update_symptom s1 a).current_question_count := by
        intro hcon
        rw [(stop_condition_iff _ hst1).mpr hcon] at hst
        exact absurd hst (by decide)
      rw [hstep]
      simpa using hmc

/-- Witness for `should_stop_spec`: the stop decision fires at the cap, and
a first answered question out of a budget of 8 does not complete the
session. -/
theorem should_stop_spec_witness :
    should_stop_asking "fever" [] 8 8 = true
    ∧ ((answer_intake_step "a" "b" (initial_session "fever" 8)
          "I have fever").is_complete = true ↔
        (answer_intake_step "a" "b" (initial_session "fever" 8)
            "I have fever").session.max_questions ≤
          (answer_intake_step "a" "b" (initial_session "fever" 8)
              "I have fever").session.current_question_count) :=
  ⟨(should_stop_spec.1 "fever" [] 8 8).mpr (by decide),
   should_stop_spec.2 "a" "b" "I have fever" (initial_session "fever" 8)
     rfl (by decide)⟩

/-! ### C2 — completion percent (amended) -/

/-- C2 (amended): for a positive budget the progress-only completion percent
is 100 exactly when the count has reached the budget, and at the use-case
level the reported percent (forced to 100 on completion) is 100 exactly when
the turn completed the session. -/
theorem completion_percent_spec :
    (∀ (d : String) (pa aq : List String) (c m : Nat), 0 < m →
        (assess_completion_percent d pa aq c m = 100 ↔ m ≤ c))
    ∧ (∀ (lc ln a : String) (s : IntakeSession), s.status = .in_progress →
        (answer_intake_step lc ln s a).error = none →
        ((answer_intake_step lc ln s a).completion_percent = 100 ↔
          (answer_intake_step lc ln s a).is_complete = true)) := by
  constructor
  · intro d pa aq c m hm
    constructor
    · intro h
      by_contra hc
      exact absurd h (Nat.ne_of_lt (assess_lt_100 d pa aq hm (Nat.lt_of_not_le hc)))
    · intro h
      exact assess_eq_100 d pa aq hm h
  · intro lc ln a s hip he
    obtain ⟨s1, hne, hadd, hcase⟩ := step_ok_cases lc ln a s he
    obtain ⟨-, hlt, -, hs1⟩ := add_ok_pair hadd
    have hst1 : (update_symptom s1 a).status = .in_progress := by
      rw [update_symptom_status, hs1, hip]
    rcases hcase with ⟨hst, hstep⟩ | ⟨hst, hstep⟩
    · rw [hstep]
      simp
    · have hmc : (update_symptom s1 a).current_question_count <
          (update_symptom s1 a).max_questions := by
        by_contra hcon
        rw [(stop_condition_iff _ hst1).mpr (Nat.le_of_not_lt hcon)] at hst
        exact absurd hst (by decide)
      have hm : 0 < (update_symptom s1 a).max_questions := by omega
      rw [hstep]
      have hlt100 : completion_percent_of (update_symptom s1 a) < 100 := by
        unfold completion_percent_of
        exact assess_lt_100 _ _ _ hm hmc
      simp only []
      constructor
      · intro hcp
        exact absurd hcp (Nat.ne_of_lt hlt100)
      · intro hfalse
        exact absurd hfalse (by simp)

/-- Witness for `completion_percent_spec`: a budget of 5 reached gives 100,
and the first answered question of a budget of 8 reports a percent below
100 together with an incomplete session. -/
theorem completion_percent_spec_witness :
    assess_completion_percent "x" [] [] 5 5 = 100
    ∧ ((answer_intake_step "a" "b" (initial_session "fever" 8)
          "I have fever").completion_percent = 100 ↔
        (answer_intake_step "a" "b" (initial_session "fever" 8)
            "I have fever").is_complete = true) :=
  ⟨(completion_percent_spec.1 "x" [] [] 5 5 (by decide)).mpr (by decide),
   completion_percent_spec.2 "a" "b" "I have fever" (initial_session "fever" 8)
     rfl (by decide)⟩

/-! ### C5 — the pending-question contract -/

/-- C5 counterexample: a cached *empty* pending question is not used
verbatim — the Python guard `if not current_question:` is true for the empty
string, so the use case regenerates the question (here the fixed first
question) and records that text instead of `q = ""`. -/
theorem pending_question_counterexample :
    ((initial_session "cough" 8).set_pending_question "").pending_question
      = some ""
    ∧ (answer_intake_step "a" "b"
        ((initial_session "cough" 8).set_pending_question "") "no").error = none
    ∧ (((answer_intake_step "a" "b"
          ((initial_session "cough" 8).set_pending_question "") "no").session.questions_asked.map
            (fun qa => qa.question)).getLast? = some first_question_en)
    ∧ first_question_en ≠ "" := by
  refine ⟨rfl, by decide, by decide, by decide⟩

/-- C5 (amended): if a *non-empty* pending question `q` is cached and the
`recordAnswer` of the turn succeeds, the question text of the recorded
transcript entry is exactly `q`, and the entity-level append clears the
pending question.  (An empty cached question is falsy in the Python guard
and is regenerated instead.) -/
theorem pending_question_spec (lc ln q a : String) (s : IntakeSession)
    (hp : s.pending_question = some q) (hq0 : q ≠ "")
    (he : (answer_intake_step lc ln s a).error = none) :
    ((answer_intake_step lc ln s a).session.questions_asked.map
        (fun qa => qa.question)).getLast? = some q
    ∧ (∀ s1, s.add_question_answer q a = (s1, none) →
        s1.pending_question = none) := by
  constructor
  · obtain ⟨s1, hne, hadd, hcase⟩ := step_ok_cases lc ln a s he
    have hq : derived_current_question lc s = q := by
      unfold derived_current_question
      rw [hp]
      simp only [Option.getD_some]
      rw [if_neg hq0]
    rw [hq] at hadd
    obtain ⟨-, -, -, hs1⟩ := add_ok_pair hadd
    rcases hcase with ⟨-, hstep⟩ | ⟨-, hstep⟩ <;> rw [hstep] <;> simp [hs1]
  · intro s1 hadd'
    obtain ⟨-, -, -, hs1⟩ := add_ok_pair hadd'
    rw [hs1]

/-- Witness for `pending_question_spec`: a cached "Do you smoke?" is exactly
the question recorded by the next answer, and the append clears the cache. -/
theorem pending_question_spec_witness :
    (((answer_intake_step "a" "b"
          ((initial_session "cough" 8).set_pending_question "Do you smoke?")
          "no").session.questions_asked.map (fun qa => qa.question)).getLast?
        = some "Do you smoke?")
    ∧ (∀ s1, ((initial_session "cough" 8).set_pending_question
          "Do you smoke?").add_question_answer "Do you smoke?" "no" = (s1, none) →
        s1.pending_question = none) :=
  pending_question_spec "a" "b" "Do you smoke?" "no"
    ((initial_session "cough" 8).set_pending_question "Do you smoke?")
    rfl (by decide) (by decide)


/-! ### C4 — placement of the closing question -/

/-- At the forced turn (`current_count + 1 >= max_count`) the English next
question is the fixed closing question, whatever the model replied. -/
lemma gnq_closing (llm d : String) (pa aq : List String) {c m : Nat}
    (h : m ≤ c + 1) :
    generate_next_question llm d pa aq c m "en" = closing_question_en := by
  unfold generate_next_question
  rw [if_pos h, if_neg (by decide : ¬("en" : String) = "sp")]

/-- A fresh session satisfies the invariant. -/
lemma inv_initial (d : String) (m : Nat) : SessionInv (initial_session d m) := by
  refine ⟨by simp [questionTexts, initial_session], rfl, Nat.zero_le _,
    by simp [initial_session], ?_, ?_⟩
  · intro p hp _
    simp [initial_session] at hp
  · intro hco
    simp [initial_session] at hco

/-- One dialogue turn preserves the invariant. -/
lemma inv_step (lc ln a : String) (s : IntakeSession) (h : SessionInv s) :
    SessionInv ((answer_intake_step lc ln s a).session) := by
  rcases step_session_cases lc ln a s with hs | he
  · rw [hs]; exact h
  · obtain ⟨s1, hne, hadd, hcase⟩ := step_ok_cases lc ln a s he
    obtain ⟨-, hlt, hfresh, hs1⟩ := add_ok_pair hadd
    have hip : s.status = .in_progress := by
      cases hstat : s.status
      · rfl
      · exact absurd hstat hne
      · exact absurd hstat h.not_cancelled
    have hst1 : (update_symptom s1 a).status = .in_progress := by
      rw [update_symptom_status, hs1]
      exact hip
    -- shared shape facts about the post-append session
    have hqs : (update_symptom s1 a).questions_asked = s.questions_asked ++
        [{ question := derived_current_question lc s, answer := a
           question_number := s.current_question_count + 1 }] := by
      rw [update_symptom_questions, hs1]
    have hcount : (update_symptom s1 a).current_question_count =
        s.current_question_count + 1 := by
      rw [update_symptom_count, hs1]
    have hmax : (update_symptom s1 a).max_questions = s.max_questions := by
      rw [update_symptom_max, hs1]
    have hpend : (update_symptom s1 a).pending_question = none := by
      rw [update_symptom_pending, hs1]
    have hnodup : ((questionTexts (update_symptom s1 a)).map normalizeQ).Nodup := by
      unfold questionTexts
      rw [hqs, List.map_append, List.map_append]
      simp only [List.map_cons, List.map_nil]
      rw [List.nodup_append]
      refine ⟨h.nodup, List.nodup_singleton _, ?_⟩
      intro x hx hx1
      simp only [List.mem_singleton] at hx1
      subst hx1
      simp only [questionTexts, List.map_map, List.mem_map] at hx
      obtain ⟨qa, hqa, hqx⟩ := hx
      exact hfresh qa hqa hqx
    have hlen : (update_symptom s1 a).questions_asked.length =
        (update_symptom s1 a).current_question_count := by
      rw [hqs, hcount, List.length_append, List.length_singleton, h.len_eq]
    have hcle : (update_symptom s1 a).current_question_count ≤
        (update_symptom s1 a).max_questions := by
      rw [hcount, hmax]
      omega
    rcases hcase with ⟨hst, hstep⟩ | ⟨hst, hstep⟩
    · -- completing turn
      rw [hstep]
      have hmc := (stop_condition_iff _ hst1).mp hst
      rw [hmax, hcount] at hmc
      -- the recorded question is the closing question, unless nothing was
      -- recorded before (count 0, budget 1)
      have hcq_cases : derived_current_question lc s = closing_question_en ∨
          s.questions_asked = [] := by
        unfold derived_current_question
        by_cases hemp : s.pending_question.getD "" = ""
        · rw [if_pos hemp]
          by_cases hc0 : s.current_question_count = 0
          · right
            have hl := h.len_eq
            rw [hc0] at hl
            exact List.eq_nil_of_length_eq_zero hl
          · left
            rw [if_neg hc0]
            exact gnq_closing _ _ _ _ (by omega)
        · rw [if_neg hemp]
          left
          cases hpq : s.pending_question with
          | none => simp [hpq] at hemp
          | some p =>
            simp only [hpq, Option.getD_some]
            exact h.pending_forced p hpq (by omega)
      refine ⟨?_, ?_, ?_, ?_, ?_, ?_⟩
      · simpa [questionTexts] using hnodup
      · simpa using hlen
      · simpa using hcle
      · simp
      · intro p hp _
        rw [complete_intake_pending, hpend] at hp
        cases hp
      · intro _ qa hmem hqa_text
        rw [complete_intake_questions, hqs] at hmem ⊢
        rcases List.mem_append.mp hmem with hin | hin
        · exfalso
          rcases hcq_cases with hcq | hnil
          · exact hfresh qa hin (by rw [hqa_text, hcq])
          · rw [hnil] at hin
            cases hin
        · simp only [List.mem_singleton] at hin
          rw [hin]
          simp
    · -- continuing turn
      rw [hstep]
      refine ⟨?_, ?_, ?_, ?_, ?_, ?_⟩
      · simpa [questionTexts] using hnodup
      · simpa using hlen
      · simpa using hcle
      · rw [set_pending_status, hst1]
        decide
      · intro p hp hforced
        rw [set_pending_pending] at hp
        injection hp with hp
        rw [set_pending_max, set_pending_count] at hforced
        rw [← hp]
        unfold next_question_of
        exact gnq_closing _ _ _ _ hforced
      · intro hco
        rw [set_pending_status, hst1] at hco
        cases hco


/-- The invariant holds along any whole dialogue. -/
lemma inv_run (t : List (String × String × String)) (s : IntakeSession)
    (h : SessionInv s) : SessionInv (run_intake s t) := by
  induction t generalizing s with
  | nil => exact h
  | cons head rest ih =>
    obtain ⟨lc, ln, a⟩ := head
    exact ih _ (inv_step lc ln a s h)

/-- C4: along any dialogue from a fresh session, the fixed closing question
text appears at most once in the transcript; if the session is completed and
an entry carries the closing text, that entry is the last one recorded; and
whenever `current_count + 1 >= max_count` (i.e. the transcript length is at
least the budget minus one) the generated next question is exactly the
closing text. -/
theorem closing_question_spec (d : String) (m : Nat)
    (t : List (String × String × String)) :
    (questionTexts (run_intake (initial_session d m) t)).count
        closing_question_en ≤ 1
    ∧ ((run_intake (initial_session d m) t).status = .completed →
        ∀ qa ∈ (run_intake (initial_session d m) t).questions_asked,
          qa.question = closing_question_en →
          (run_intake (initial_session d m) t).questions_asked.getLast? = some qa)
    ∧ (∀ (llm d2 : String) (pa aq : List String) (c : Nat), m ≤ c + 1 →
        generate_next_question llm d2 pa aq c m "en" = closing_question_en) := by
  have hinv := inv_run t (initial_session d m) (inv_initial d m)
  refine ⟨?_, hinv.completed_last, ?_⟩
  · exact List.nodup_iff_count_le_one.mp hinv.nodup.of_map _
  · intro llm d2 pa aq c hc
    exact gnq_closing llm d2 pa aq hc

/-- Witness for `closing_question_spec`: a two-question dialogue ends in the
closing question as its final recorded entry, and turn seven of eight forces
the closing text whatever the model replied. -/
theorem closing_question_spec_witness :
    (run_intake (initial_session "fever" 2)
        [("a", "b", "I have had fever for two days"),
         ("c", "d", "nothing else")]).questions_asked.getLast?
      = some { question := closing_question_en, answer := "nothing else"
               question_number := 2 }
    ∧ generate_next_question "some model text" "fever" [] [] 7 8 "en"
        = closing_question_en := by
  refine ⟨?_, (closing_question_spec "fever" 8 []).2.2 "some model text"
    "fever" [] [] 7 (by decide)⟩
  exact (closing_question_spec "fever" 2
      [("a", "b", "I have had fever for two days"),
       ("c", "d", "nothing else")]).2.1
    (by decide)
    { question := closing_question_en, answer := "nothing else"
      question_number := 2 }
    (by decide) rfl

end ClinicAI
